import Mathlib

/-!
Verification of the conversation scroll/layout engine and the prompt input
of the chat UI (files `src/components/prompt-input.js`, which holds both the
`PromptInput` component and the `Conversation` component with its
scroll-latch and snap-layout engines).

Shallow embedding conventions:
* DOM metrics (`scrollTop`, `scrollHeight`, `clientHeight`,
  `getBoundingClientRect().height`, paddings) are rationals in a `Viewport`
  record; mutation becomes explicit state passing.
* Setting `container.style.paddingBottom` changes the content height
  (`scrollHeight`) by the padding delta, as in the DOM box model.
* Assigning `container.scrollTop` clamps to the valid scroll range
  `[0, scrollHeight - clientHeight]`, as the DOM does.
* `requestAnimationFrame` deferral is modelled by sequential composition:
  the deferred `enforce(null, true)` of `scrollToMessage` is a separate step
  applied after it.
-/

namespace Nee

/-- Configuration record; `DEFAULT_CONFIG` in the source. -/
structure Config where
  NEAR_BOTTOM_THRESHOLD : ℚ
  SCROLL_FOLLOW_THRESHOLD : ℚ
deriving DecidableEq

/-- `DEFAULT_CONFIG = { NEAR_BOTTOM_THRESHOLD: 4, SCROLL_FOLLOW_THRESHOLD: 50 }`. -/
def DEFAULT_CONFIG : Config := ⟨4, 50⟩

/-- The scrollable container's observable metrics.
`boundingHeight` models `container.getBoundingClientRect().height`,
`clientHeight` models `container.clientHeight` (they may differ by borders
or scrollbars). `paddingTop`/`paddingBottom` model the computed-style
paddings read by `parseFloat(getComputedStyle(container).padding*)`. -/
structure Viewport where
  scrollTop : ℚ
  scrollHeight : ℚ
  clientHeight : ℚ
  boundingHeight : ℚ
  paddingTop : ℚ
  paddingBottom : ℚ
deriving DecidableEq

/-- The maximum value `scrollTop` can take: `scrollHeight - clientHeight`,
never below 0 (DOM clamping). -/
def maxScroll (vp : Viewport) : ℚ :=
  max 0 (vp.scrollHeight - vp.clientHeight)

/-- Assigning `container.scrollTop = v`: the DOM clamps the stored value to
the valid range `[0, maxScroll]`. -/
def setScrollTop (v : ℚ) (vp : Viewport) : Viewport :=
  { vp with scrollTop := min (max v 0) (maxScroll vp) }

/-- Assigning `container.style.paddingBottom = p + "px"`: the bottom padding
becomes `p` and the content height (`scrollHeight`) changes by the delta. -/
def setPaddingBottom (p : ℚ) (vp : Viewport) : Viewport :=
  { vp with scrollHeight := vp.scrollHeight - vp.paddingBottom + p, paddingBottom := p }

/-- A message element as the snap engine sees it: only `offsetTop` is read. -/
structure Element where
  offsetTop : ℚ
deriving DecidableEq

/-- State owned by `createSnapLayout`: the optional pin target and the
`isSnapped` flag. -/
structure SnapState where
  target : Option Element
  isSnapped : Bool
deriving DecidableEq

/-- `getContainerPadding`: `parseFloat(getComputedStyle(container).paddingTop) || 0`. -/
def getContainerPadding (vp : Viewport) : ℚ := vp.paddingTop

/-- `calculateOffset`: `Math.max(0, element.offsetTop - getContainerPadding())`. -/
def calculateOffset (el : Element) (vp : Viewport) : ℚ :=
  max 0 (el.offsetTop - getContainerPadding vp)

/-- The effective viewport height used by `enforce`:
`overrideHeight || container.getBoundingClientRect().height` — JavaScript `||`
falls back when `overrideHeight` is `null` or `0` (falsy). -/
def viewportHeightOf (overrideHeight : Option ℚ) (vp : Viewport) : ℚ :=
  match overrideHeight with
  | none => vp.boundingHeight
  | some h => if h = 0 then vp.boundingHeight else h

/-- The object literal `{ isSnapped, padding }` returned by `enforce`. -/
structure EnforceResult where
  isSnapped : Bool
  padding : ℤ
deriving DecidableEq

/-- The padding computation inside `enforce`:
`Math.max(0, Math.ceil(snapOffset - maxNaturalScroll + 1))` where
`maxNaturalScroll = (scrollHeight - currentPadding) - viewportHeight`. -/
def neededPadding (el : Element) (vp : Viewport) (overrideHeight : Option ℚ) : ℤ :=
  max 0 ⌈calculateOffset el vp -
    ((vp.scrollHeight - vp.paddingBottom) - viewportHeightOf overrideHeight vp) + 1⌉

/-- `enforce(overrideHeight, forceSnap)` of the snap layout engine, returning
the updated snap state, the updated viewport and the returned object. -/
def enforce (snap : SnapState) (vp : Viewport) (overrideHeight : Option ℚ)
    (forceSnap : Bool) : SnapState × Viewport × EnforceResult :=
  match snap.target with
  | none => (snap, vp, ⟨false, 0⟩)
  | some el =>
    let np := neededPadding el vp overrideHeight
    let vp1 := setPaddingBottom (np : ℚ) vp
    let snapOffset := calculateOffset el vp
    let drift := |vp1.scrollTop - snapOffset|
    if forceSnap then
      ({ snap with isSnapped := true }, setScrollTop snapOffset vp1, ⟨true, np⟩)
    else if snap.isSnapped then
      if drift > 10 then
        ({ snap with isSnapped := false }, vp1, ⟨false, np⟩)
      else if drift > 0 then
        (snap, setScrollTop snapOffset vp1, ⟨snap.isSnapped, np⟩)
      else
        (snap, vp1, ⟨snap.isSnapped, np⟩)
    else
      (snap, vp1, ⟨snap.isSnapped, np⟩)

/-- `setTarget(element)`: designates the pin target and marks snapped. -/
def setTarget (el : Element) (_snap : SnapState) : SnapState :=
  ⟨some el, true⟩

/-- `getTarget()`. -/
def getTarget (snap : SnapState) : Option Element := snap.target

/-- `clear()` of the snap layout: drops the target, marks unsnapped and
resets the bottom padding to `0px`. -/
def clearSnap (_snap : SnapState) (vp : Viewport) : SnapState × Viewport :=
  (⟨none, false⟩, setPaddingBottom 0 vp)

/-- State owned by `createScrollLatch`: the `latched` flag and the
last-observed scroll offset. -/
structure LatchState where
  latched : Bool
  lastScrollTop : ℚ
deriving DecidableEq

/-- The container metrics observed by the scroll listener at one scroll
event (`container.scrollTop`, `container.scrollHeight`,
`container.clientHeight` at that moment). -/
structure ScrollEvent where
  scrollTop : ℚ
  scrollHeight : ℚ
  clientHeight : ℚ
deriving DecidableEq

/-- The `handleScroll` listener of `createScrollLatch`: break the latch on
any upward motion, else re-engage it when within the near-bottom
threshold, and store the new offset as the next baseline. -/
def handleScroll (config : Config) (st : LatchState) (ev : ScrollEvent) : LatchState :=
  let currentScroll := ev.scrollTop
  let distFromBottom := ev.scrollHeight - currentScroll - ev.clientHeight
  let latched :=
    if currentScroll < st.lastScrollTop then false
    else if distFromBottom < config.NEAR_BOTTOM_THRESHOLD then true
    else st.latched
  ⟨latched, currentScroll⟩

/-- The trace of latch states produced by a sequence of scroll events:
one state per event, in order. -/
def runLatch (config : Config) (st : LatchState) : List ScrollEvent → List LatchState
  | [] => []
  | ev :: rest =>
    let st' := handleScroll config st ev
    st' :: runLatch config st' rest

/-- A sequence of scroll events whose offsets strictly decrease, starting
strictly below the baseline `x`. -/
def StrictlyDecreasing (x : ℚ) : List ScrollEvent → Prop
  | [] => True
  | ev :: rest => ev.scrollTop < x ∧ StrictlyDecreasing ev.scrollTop rest

/-- `engage()` of the latch. -/
def engage (vp : Viewport) (_st : LatchState) : LatchState :=
  ⟨true, vp.scrollTop⟩

/-- `disengage()` of the latch. -/
def disengage (st : LatchState) : LatchState :=
  { st with latched := false }

/-- The `Conversation` controller's state: its two engines, the viewport and
the streaming flag. -/
structure ConvState where
  latch : LatchState
  snap : SnapState
  vp : Viewport
  isStreaming : Bool
deriving DecidableEq

/-- `scrollToBottom(smooth)`: clears the snap layout, then
`container.scrollTo({ top: container.scrollHeight })` (the `smooth` flag only
selects the animation and does not change the final offset). -/
def scrollToBottom (c : ConvState) : ConvState :=
  let cleared := clearSnap c.snap c.vp
  { c with snap := cleared.1, vp := setScrollTop cleared.2.scrollHeight cleared.2 }

/-- The synchronous part of `scrollToMessage(element)`: set the snap target,
mark streaming, disengage the latch. The `requestAnimationFrame`-deferred
`enforce(null, true)` is a separate subsequent step (see the module doc). -/
def scrollToMessage (el : Element) (c : ConvState) : ConvState :=
  { c with snap := setTarget el c.snap, isStreaming := true, latch := disengage c.latch }

/-- Iterated `enforce` calls without `forceSnap`, each observing an
arbitrary viewport state and override height; returns the final snap state. -/
def enforceRun (snap : SnapState) : List (Viewport × Option ℚ) → SnapState
  | [] => snap
  | step :: rest => enforceRun (enforce snap step.1 step.2 false).1 rest

/-- `MAX_ATTACHMENTS` of the prompt input. -/
def MAX_ATTACHMENTS : ℤ := 5

/-- A selected file as the prompt input sees it (`file.name`, `file.type`). -/
structure JSFile where
  name : String
  mediaType : String
deriving DecidableEq

/-- An attachment record built by `handleFiles` (the data URL and the raw
file handle carry no logic and are omitted). -/
structure Attachment where
  type : String
  mediaType : String
  filename : String
deriving DecidableEq

/-- The attachment object construction inside the `handleFiles` loop. -/
def attachmentOfFile (f : JSFile) : Attachment :=
  { type :=
      if f.mediaType.startsWith "image/" then "image"
      else if f.mediaType.startsWith "video/" then "video"
      else if f.mediaType.startsWith "audio/" then "audio"
      else "file",
    mediaType := f.mediaType,
    filename := f.name }

/-- The prompt input's attachment state: the visible `attachments` array
plus the files whose `FileReader`s have been started but whose `onload`
callbacks have not fired yet. The code never cancels a started reader. -/
structure PromptState where
  attachments : List Attachment
  pendingReads : List JSFile
deriving DecidableEq

/-- `handleFiles(files)`: computes `remaining = MAX_ATTACHMENTS -
attachments.length` synchronously at the `change` event and returns early
when `remaining <= 0`; otherwise it starts a `FileReader` for each of
`Array.from(files).slice(0, remaining)`. The `attachments.push` happens
later, inside each reader's asynchronous `onload` callback
(`readerOnload`), with no re-check of the cap. -/
def handleFiles (files : List JSFile) (st : PromptState) : PromptState :=
  let remaining : ℤ := MAX_ATTACHMENTS - st.attachments.length
  if remaining ≤ 0 then st
  else { st with pendingReads := st.pendingReads ++ files.take remaining.toNat }

/-- One `FileReader.onload` callback firing (readers complete in the order
they were started): builds the attachment object and pushes it onto
`attachments`, unconditionally. -/
def readerOnload (st : PromptState) : PromptState :=
  match st.pendingReads with
  | [] => st
  | f :: rest =>
    { attachments := st.attachments ++ [attachmentOfFile f], pendingReads := rest }

/-- The prompt-input events that touch the attachment list: a file
selection (`handleFiles`), one `FileReader.onload` firing, removal of one
preview (`removeAttachment`, a `splice(index, 1)`), and clearing
(`clear` / `clearAttachments` / a successful `submit` all set
`attachments = []`; none of them cancels pending readers). -/
inductive PromptEvent where
  | selectFiles (files : List JSFile)
  | readerLoad
  | removeAt (idx : Nat)
  | clearAll
deriving DecidableEq

/-- Apply one prompt-input event. -/
def applyEvent (st : PromptState) : PromptEvent → PromptState
  | .selectFiles fs => handleFiles fs st
  | .readerLoad => readerOnload st
  | .removeAt i => { st with attachments := st.attachments.eraseIdx i }
  | .clearAll => { st with attachments := [] }

/-- Run a sequence of prompt-input events from the initial empty state. -/
def runPromptEvents (evs : List PromptEvent) : PromptState :=
  evs.foldl applyEvent ⟨[], []⟩

/-- A concrete 5-file selection. -/
def filesEx : List JSFile := List.replicate 5 ⟨"c.png", "image/png"⟩

/-- The failing event sequence for the attachment cap: two `change` events
each offering 5 files, the second arriving before any `FileReader.onload`
has fired, followed by the 10 `onload` callbacks. -/
def overflowEvents : List PromptEvent :=
  [.selectFiles filesEx, .selectFiles filesEx] ++
    List.replicate 10 .readerLoad

/-- A concrete viewport used to instantiate theorems: scroll offset 0,
content height 500, client and bounding height 500, no paddings. -/
def vpEx : Viewport := ⟨0, 500, 500, 500, 0, 0⟩

/-- A concrete pin target at `offsetTop = 600`. -/
def elEx : Element := ⟨600⟩

/-- A concrete snap state pinned on `elEx`. -/
def snapEx : SnapState := ⟨some elEx, true⟩

/-- A concrete conversation state over `vpEx`. -/
def convEx : ConvState := ⟨⟨true, 0⟩, ⟨none, false⟩, vpEx, false⟩

/- ------------------------------------------------------------------ -/
/- Helper lemmas                                                       -/
/- ------------------------------------------------------------------ -/

@[simp] lemma setPaddingBottom_scrollTop (p : ℚ) (vp : Viewport) :
    (setPaddingBottom p vp).scrollTop = vp.scrollTop := rfl

@[simp] lemma setPaddingBottom_clientHeight (p : ℚ) (vp : Viewport) :
    (setPaddingBottom p vp).clientHeight = vp.clientHeight := rfl

@[simp] lemma setPaddingBottom_boundingHeight (p : ℚ) (vp : Viewport) :
    (setPaddingBottom p vp).boundingHeight = vp.boundingHeight := rfl

@[simp] lemma setPaddingBottom_paddingTop (p : ℚ) (vp : Viewport) :
    (setPaddingBottom p vp).paddingTop = vp.paddingTop := rfl

@[simp] lemma setPaddingBottom_paddingBottom (p : ℚ) (vp : Viewport) :
    (setPaddingBottom p vp).paddingBottom = p := rfl

@[simp] lemma setPaddingBottom_scrollHeight (p : ℚ) (vp : Viewport) :
    (setPaddingBottom p vp).scrollHeight = vp.scrollHeight - vp.paddingBottom + p := rfl

@[simp] lemma setScrollTop_scrollHeight (v : ℚ) (vp : Viewport) :
    (setScrollTop v vp).scrollHeight = vp.scrollHeight := rfl

@[simp] lemma setScrollTop_clientHeight (v : ℚ) (vp : Viewport) :
    (setScrollTop v vp).clientHeight = vp.clientHeight := rfl

@[simp] lemma setScrollTop_boundingHeight (v : ℚ) (vp : Viewport) :
    (setScrollTop v vp).boundingHeight = vp.boundingHeight := rfl

@[simp] lemma setScrollTop_paddingTop (v : ℚ) (vp : Viewport) :
    (setScrollTop v vp).paddingTop = vp.paddingTop := rfl

@[simp] lemma setScrollTop_paddingBottom (v : ℚ) (vp : Viewport) :
    (setScrollTop v vp).paddingBottom = vp.paddingBottom := rfl

@[simp] lemma setScrollTop_scrollTop (v : ℚ) (vp : Viewport) :
    (setScrollTop v vp).scrollTop = min (max v 0) (maxScroll vp) := rfl

@[simp] lemma maxScroll_setScrollTop (v : ℚ) (vp : Viewport) :
    maxScroll (setScrollTop v vp) = maxScroll vp := rfl

lemma calculateOffset_nonneg (el : Element) (vp : Viewport) :
    0 ≤ calculateOffset el vp := le_max_left 0 _

@[simp] lemma calculateOffset_setPaddingBottom (el : Element) (p : ℚ) (vp : Viewport) :
    calculateOffset el (setPaddingBottom p vp) = calculateOffset el vp := rfl

@[simp] lemma calculateOffset_setScrollTop (el : Element) (v : ℚ) (vp : Viewport) :
    calculateOffset el (setScrollTop v vp) = calculateOffset el vp := rfl

@[simp] lemma viewportHeightOf_setPaddingBottom (oh : Option ℚ) (p : ℚ) (vp : Viewport) :
    viewportHeightOf oh (setPaddingBottom p vp) = viewportHeightOf oh vp := by
  cases oh <;> rfl

@[simp] lemma viewportHeightOf_setScrollTop (oh : Option ℚ) (v : ℚ) (vp : Viewport) :
    viewportHeightOf oh (setScrollTop v vp) = viewportHeightOf oh vp := by
  cases oh <;> rfl

lemma neededPadding_nonneg (el : Element) (vp : Viewport) (oh : Option ℚ) :
    0 ≤ neededPadding el vp oh := le_max_left 0 _

lemma neededPadding_setPaddingBottom (el : Element) (vp : Viewport) (oh : Option ℚ) (p : ℚ) :
    neededPadding el (setPaddingBottom p vp) oh = neededPadding el vp oh := by
  unfold neededPadding
  simp only [calculateOffset_setPaddingBottom, viewportHeightOf_setPaddingBottom,
    setPaddingBottom_scrollHeight, setPaddingBottom_paddingBottom]
  ring_nf

lemma neededPadding_setScrollTop (el : Element) (vp : Viewport) (oh : Option ℚ) (v : ℚ) :
    neededPadding el (setScrollTop v vp) oh = neededPadding el vp oh := by
  unfold neededPadding
  simp only [calculateOffset_setScrollTop, viewportHeightOf_setScrollTop,
    setScrollTop_scrollHeight, setScrollTop_paddingBottom]

/-- The synthesized padding is large enough: after it is applied, the snap
offset is strictly below the maximum scroll position, provided the client
height does not exceed the effective viewport height used by `enforce`. -/
lemma snapOffset_add_one_le_maxScroll (el : Element) (vp : Viewport) (oh : Option ℚ)
    (hch : vp.clientHeight ≤ viewportHeightOf oh vp) :
    calculateOffset el vp + 1 ≤
      maxScroll (setPaddingBottom ((neededPadding el vp oh : ℤ) : ℚ) vp) := by
  have hceil :
      calculateOffset el vp -
        ((vp.scrollHeight - vp.paddingBottom) - viewportHeightOf oh vp) + 1 ≤
        ((neededPadding el vp oh : ℤ) : ℚ) := by
    calc calculateOffset el vp -
          ((vp.scrollHeight - vp.paddingBottom) - viewportHeightOf oh vp) + 1 ≤
        ((⌈calculateOffset el vp -
          ((vp.scrollHeight - vp.paddingBottom) - viewportHeightOf oh vp) + 1⌉ : ℤ) : ℚ) :=
          Int.le_ceil _
      _ ≤ ((neededPadding el vp oh : ℤ) : ℚ) := by
          exact_mod_cast Int.cast_le.mpr (le_max_right 0 _)
  have h2 : calculateOffset el vp + 1 ≤
      (setPaddingBottom ((neededPadding el vp oh : ℤ) : ℚ) vp).scrollHeight -
        vp.clientHeight := by
    simp only [setPaddingBottom_scrollHeight]
    linarith
  calc calculateOffset el vp + 1 ≤ _ := h2
    _ ≤ maxScroll (setPaddingBottom ((neededPadding el vp oh : ℤ) : ℚ) vp) :=
        le_max_right 0 _

/-- Writing the snap offset into `scrollTop` after the padding has been
applied lands exactly on the snap offset (no clamping occurs). -/
lemma setScrollTop_snapOffset (el : Element) (vp : Viewport) (oh : Option ℚ)
    (hch : vp.clientHeight ≤ viewportHeightOf oh vp) :
    (setScrollTop (calculateOffset el vp)
      (setPaddingBottom ((neededPadding el vp oh : ℤ) : ℚ) vp)).scrollTop =
      calculateOffset el vp := by
  have h0 := calculateOffset_nonneg el vp
  have h1 := snapOffset_add_one_le_maxScroll el vp oh hch
  simp only [setScrollTop_scrollTop]
  rw [max_eq_left h0, min_eq_left (by linarith)]

lemma enforce_target (snap : SnapState) (vp : Viewport) (oh : Option ℚ) (fs : Bool) :
    (enforce snap vp oh fs).1.target = snap.target := by
  unfold enforce
  cases h : snap.target with
  | none => exact h
  | some el => dsimp only; split_ifs <;> first | rfl | exact h

/-- Unfolding of `enforce` when a target is set. -/
lemma enforce_some (snap : SnapState) (vp : Viewport) (oh : Option ℚ) (fs : Bool)
    (el : Element) (h : snap.target = some el) :
    enforce snap vp oh fs =
      (let np := neededPadding el vp oh
       let vp1 := setPaddingBottom (np : ℚ) vp
       let snapOffset := calculateOffset el vp
       let drift := |vp1.scrollTop - snapOffset|
       if fs then ({ snap with isSnapped := true }, setScrollTop snapOffset vp1, ⟨true, np⟩)
       else if snap.isSnapped then
         if drift > 10 then ({ snap with isSnapped := false }, vp1, ⟨false, np⟩)
         else if drift > 0 then (snap, setScrollTop snapOffset vp1, ⟨snap.isSnapped, np⟩)
         else (snap, vp1, ⟨snap.isSnapped, np⟩)
       else (snap, vp1, ⟨snap.isSnapped, np⟩)) := by
  unfold enforce; rw [h]

lemma enforce_padding_eq (snap : SnapState) (vp : Viewport) (oh : Option ℚ) (fs : Bool)
    (el : Element) (h : snap.target = some el) :
    (enforce snap vp oh fs).2.2.padding = neededPadding el vp oh := by
  rw [enforce_some snap vp oh fs el h]
  dsimp only; split_ifs <;> rfl

lemma enforce_keeps_unsnapped (snap : SnapState) (vp : Viewport) (oh : Option ℚ)
    (h : snap.isSnapped = false) :
    (enforce snap vp oh false).1.isSnapped = false := by
  unfold enforce
  cases ht : snap.target with
  | none => exact h
  | some el => dsimp only; rw [if_neg (by simp), h]; simp [h]

lemma enforceRun_keeps_unsnapped (steps : List (Viewport × Option ℚ)) (snap : SnapState)
    (h : snap.isSnapped = false) :
    (enforceRun snap steps).isSnapped = false := by
  induction steps generalizing snap with
  | nil => exact h
  | cons step rest ih =>
    exact ih _ (enforce_keeps_unsnapped snap step.1 step.2 h)

/- ------------------------------------------------------------------ -/
/- Claims                                                              -/
/- ------------------------------------------------------------------ -/

/-- C1: for every call to `enforce` with a snap target set, the bottom
padding applied equals `max(0, ceil(requiredOffset - maxNaturalScroll + 1))`,
where `requiredOffset = calculateOffset(target)` and
`maxNaturalScroll = (scrollHeight - currentBottomPadding) - viewportHeight`. -/
theorem enforce_padding_formula (snap : SnapState) (vp : Viewport) (oh : Option ℚ)
    (fs : Bool) (el : Element) (h : snap.target = some el) :
    (enforce snap vp oh fs).2.2.padding =
      max 0 ⌈calculateOffset el vp -
        ((vp.scrollHeight - vp.paddingBottom) - viewportHeightOf oh vp) + 1⌉ ∧
    (enforce snap vp oh fs).2.1.paddingBottom =
      ((max 0 ⌈calculateOffset el vp -
        ((vp.scrollHeight - vp.paddingBottom) - viewportHeightOf oh vp) + 1⌉ : ℤ) : ℚ) := by
  constructor
  · exact enforce_padding_eq snap vp oh fs el h
  · rw [enforce_some snap vp oh fs el h]
    dsimp only; split_ifs <;> rfl

/-- Witness for C1 at a concrete input. -/
theorem enforce_padding_formula_witness :
    (snapEx.target = some elEx) ∧
    ((enforce snapEx vpEx none true).2.2.padding =
      max 0 ⌈calculateOffset elEx vpEx -
        ((vpEx.scrollHeight - vpEx.paddingBottom) - viewportHeightOf none vpEx) + 1⌉ ∧
     (enforce snapEx vpEx none true).2.1.paddingBottom =
      ((max 0 ⌈calculateOffset elEx vpEx -
        ((vpEx.scrollHeight - vpEx.paddingBottom) - viewportHeightOf none vpEx) + 1⌉ : ℤ) : ℚ)) :=
  ⟨rfl, enforce_padding_formula snapEx vpEx none true elEx rfl⟩

/-- C2 counterexample: in the spec scenario (viewport height 500, content
height 500, zero padding, pinned target offset 600) the padding computed by
`enforce` is not 101. -/
theorem enforce_scenario_padding_ne :
    (enforce snapEx vpEx none true).2.2.padding ≠ 101 := by
  norm_num [enforce, snapEx, vpEx, elEx, neededPadding, calculateOffset,
    getContainerPadding, viewportHeightOf, setPaddingBottom, setScrollTop, maxScroll]

/-- C2 amended: in that scenario the padding is
`601 = ceil(600 - ((500 - 0) - 500) + 1)`, and after the padding is applied
scrolling to offset 600 lands exactly at 600 (it is a reachable position). -/
theorem enforce_scenario_padding :
    (enforce snapEx vpEx none true).2.2.padding = 601 ∧
    (setScrollTop 600 (enforce snapEx vpEx none true).2.1).scrollTop = 600 := by
  norm_num [enforce, snapEx, vpEx, elEx, neededPadding, calculateOffset,
    getContainerPadding, viewportHeightOf, setPaddingBottom, setScrollTop, maxScroll]

/-- C8: `calculateOffset` is never negative and the padding computed and
applied by `enforce` is never negative; every operation is total. -/
theorem layout_nonneg :
    (∀ (el : Element) (vp : Viewport), 0 ≤ calculateOffset el vp) ∧
    (∀ (snap : SnapState) (vp : Viewport) (oh : Option ℚ) (fs : Bool),
      0 ≤ (enforce snap vp oh fs).2.2.padding) := by
  refine ⟨calculateOffset_nonneg, ?_⟩
  intro snap vp oh fs
  cases h : snap.target with
  | none =>
    unfold enforce; rw [h]
  | some el =>
    rw [enforce_padding_eq snap vp oh fs el h]
    exact neededPadding_nonneg el vp oh

/-- C9: with no snap target, `enforce` returns `{ isSnapped: false,
padding: 0 }` and changes nothing, even when `forceSnap` is true. -/
theorem enforce_no_target (snap : SnapState) (vp : Viewport) (oh : Option ℚ) (fs : Bool)
    (h : snap.target = none) :
    enforce snap vp oh fs = (snap, vp, ⟨false, 0⟩) := by
  unfold enforce; rw [h]

/-- Witness for C9 at a concrete input. -/
theorem enforce_no_target_witness :
    ((⟨none, false⟩ : SnapState).target = none) ∧
    enforce ⟨none, false⟩ vpEx (some 300) true = (⟨none, false⟩, vpEx, ⟨false, 0⟩) :=
  ⟨rfl, enforce_no_target ⟨none, false⟩ vpEx (some 300) true rfl⟩

/-- C4: during an `enforce` call without `forceSnap` while snapped, if the
drift between the actual scroll offset and the required offset exceeds the
break threshold of 10 units, `isSnapped` becomes false, and no sequence of
later `enforce` calls without `forceSnap` ever sets it back to true. -/
theorem snap_breaks_and_stays_broken (snap : SnapState) (vp : Viewport) (oh : Option ℚ)
    (el : Element) (steps : List (Viewport × Option ℚ))
    (ht : snap.target = some el) (hs : snap.isSnapped = true)
    (hd : 10 < |vp.scrollTop - calculateOffset el vp|) :
    (enforce snap vp oh false).1.isSnapped = false ∧
    (enforce snap vp oh false).2.2.isSnapped = false ∧
    (enforceRun (enforce snap vp oh false).1 steps).isSnapped = false := by
  have hfirst : enforce snap vp oh false =
      ({ snap with isSnapped := false }, setPaddingBottom ((neededPadding el vp oh : ℤ) : ℚ) vp,
        ⟨false, neededPadding el vp oh⟩) := by
    rw [enforce_some snap vp oh false el ht]
    dsimp only
    rw [if_neg (by simp), if_pos hs, if_pos (by simpa using hd)]
  refine ⟨by rw [hfirst], by rw [hfirst], ?_⟩
  exact enforceRun_keeps_unsnapped steps _ (by rw [hfirst])

/-- Witness for C4 at a concrete input: offset 0 against a required
offset of 600 (drift 600 > 10), followed by one more plain call. -/
theorem snap_breaks_and_stays_broken_witness :
    (snapEx.target = some elEx ∧ snapEx.isSnapped = true ∧
      10 < |vpEx.scrollTop - calculateOffset elEx vpEx|) ∧
    ((enforce snapEx vpEx none false).1.isSnapped = false ∧
     (enforce snapEx vpEx none false).2.2.isSnapped = false ∧
     (enforceRun (enforce snapEx vpEx none false).1 [(vpEx, none)]).isSnapped = false) :=
  ⟨⟨rfl, rfl, by norm_num [vpEx, elEx, calculateOffset, getContainerPadding]⟩,
    snap_breaks_and_stays_broken snapEx vpEx none elEx [(vpEx, none)] rfl rfl
      (by norm_num [vpEx, elEx, calculateOffset, getContainerPadding])⟩

lemma runLatch_strictly_decreasing (config : Config) (st : LatchState)
    (evs : List ScrollEvent) (hdec : StrictlyDecreasing st.lastScrollTop evs) :
    ∀ s ∈ runLatch config st evs, s.latched = false := by
  induction evs generalizing st with
  | nil => intro s hs; simp [runLatch] at hs
  | cons ev rest ih =>
    obtain ⟨h1, h2⟩ := hdec
    intro s hs
    rw [runLatch] at hs
    rcases List.mem_cons.mp hs with h | h
    · subst h
      simp [handleScroll, if_pos h1]
    · exact ih (handleScroll config st ev) (by simpa [handleScroll] using h2) s h

/-- C5: over any strictly offset-decreasing sequence of scroll events the
latch is disengaged from the first event onward; an event at or past the
baseline whose distance from bottom is below the re-engage threshold
re-engages it; and any upward motion, even by 1 unit, breaks the latch. -/
theorem latch_disengages_on_upward_scroll (config : Config) (st : LatchState)
    (evs : List ScrollEvent) (hdec : StrictlyDecreasing st.lastScrollTop evs) :
    (∀ s ∈ runLatch config st evs, s.latched = false) ∧
    (∀ (st' : LatchState) (ev : ScrollEvent), ¬ ev.scrollTop < st'.lastScrollTop →
      ev.scrollHeight - ev.scrollTop - ev.clientHeight < config.NEAR_BOTTOM_THRESHOLD →
      (handleScroll config st' ev).latched = true) ∧
    (∀ (st' : LatchState) (ev : ScrollEvent), ev.scrollTop < st'.lastScrollTop →
      (handleScroll config st' ev).latched = false) := by
  refine ⟨runLatch_strictly_decreasing config st evs hdec, ?_, ?_⟩
  · intro st' ev hup hnear
    simp [handleScroll, if_neg hup, if_pos hnear]
  · intro st' ev hup
    simp [handleScroll, if_pos hup]

/-- Witness for C5 at a concrete input: baseline offset 100, events at
offsets 50 then 49 (strictly decreasing, including a 1-unit step). -/
theorem latch_disengages_on_upward_scroll_witness :
    StrictlyDecreasing (⟨true, 100⟩ : LatchState).lastScrollTop
      [⟨50, 1000, 500⟩, ⟨49, 1000, 500⟩] ∧
    ((∀ s ∈ runLatch DEFAULT_CONFIG ⟨true, 100⟩ [⟨50, 1000, 500⟩, ⟨49, 1000, 500⟩],
        s.latched = false) ∧
     (∀ (st' : LatchState) (ev : ScrollEvent), ¬ ev.scrollTop < st'.lastScrollTop →
        ev.scrollHeight - ev.scrollTop - ev.clientHeight < DEFAULT_CONFIG.NEAR_BOTTOM_THRESHOLD →
        (handleScroll DEFAULT_CONFIG st' ev).latched = true) ∧
     (∀ (st' : LatchState) (ev : ScrollEvent), ev.scrollTop < st'.lastScrollTop →
        (handleScroll DEFAULT_CONFIG st' ev).latched = false)) :=
  ⟨by norm_num [StrictlyDecreasing],
   latch_disengages_on_upward_scroll DEFAULT_CONFIG ⟨true, 100⟩
     [⟨50, 1000, 500⟩, ⟨49, 1000, 500⟩] (by norm_num [StrictlyDecreasing])⟩

/-- C7: `scrollToBottom` always clears the snap target, scrolls the
viewport to its maximum scroll offset, and leaves the streaming flag
unchanged. -/
theorem scrollToBottom_clears_and_bottoms (c : ConvState)
    (hch : 0 ≤ c.vp.clientHeight) :
    getTarget (scrollToBottom c).snap = none ∧
    (scrollToBottom c).vp.scrollTop = maxScroll (scrollToBottom c).vp ∧
    (scrollToBottom c).isStreaming = c.isStreaming := by
  refine ⟨rfl, ?_, rfl⟩
  show (setScrollTop (setPaddingBottom 0 c.vp).scrollHeight (setPaddingBottom 0 c.vp)).scrollTop
      = maxScroll (setScrollTop (setPaddingBottom 0 c.vp).scrollHeight (setPaddingBottom 0 c.vp))
  rw [maxScroll_setScrollTop, setScrollTop_scrollTop]
  apply min_eq_right
  have h1 : (setPaddingBottom 0 c.vp).scrollHeight - (setPaddingBottom 0 c.vp).clientHeight
      ≤ (setPaddingBottom 0 c.vp).scrollHeight := by
    simp only [setPaddingBottom_clientHeight]
    linarith
  calc maxScroll (setPaddingBottom 0 c.vp)
      ≤ max 0 (setPaddingBottom 0 c.vp).scrollHeight := max_le_max le_rfl h1
    _ = max (setPaddingBottom 0 c.vp).scrollHeight 0 := max_comm _ _

/-- Witness for C7 at a concrete input. -/
theorem scrollToBottom_clears_and_bottoms_witness :
    (0 ≤ convEx.vp.clientHeight) ∧
    (getTarget (scrollToBottom convEx).snap = none ∧
     (scrollToBottom convEx).vp.scrollTop = maxScroll (scrollToBottom convEx).vp ∧
     (scrollToBottom convEx).isStreaming = convEx.isStreaming) :=
  ⟨by norm_num [convEx, vpEx],
   scrollToBottom_clears_and_bottoms convEx (by norm_num [convEx, vpEx])⟩

/-- C3: after `scrollToMessage(X)` followed immediately by one
`enforce(null, true)`, the viewport's scroll offset equals
`calculateOffset(X)` exactly and the returned and stored `isSnapped` are
true, regardless of the drift before the call. (The hypothesis says the
box borders do not make the client height exceed the bounding height.) -/
theorem scrollToMessage_then_force_snap (c : ConvState) (el : Element)
    (hch : c.vp.clientHeight ≤ c.vp.boundingHeight) :
    (enforce (scrollToMessage el c).snap (scrollToMessage el c).vp none true).2.1.scrollTop
        = calculateOffset el c.vp ∧
    (enforce (scrollToMessage el c).snap (scrollToMessage el c).vp none true).2.2.isSnapped
        = true ∧
    (enforce (scrollToMessage el c).snap (scrollToMessage el c).vp none true).1.isSnapped
        = true := by
  rw [enforce_some (scrollToMessage el c).snap (scrollToMessage el c).vp none true el rfl]
  dsimp only
  rw [if_pos rfl]
  exact ⟨setScrollTop_snapOffset el c.vp none hch, rfl, rfl⟩

/-- Witness for C3 at a concrete input (initial offset 0, target at 600). -/
theorem scrollToMessage_then_force_snap_witness :
    (convEx.vp.clientHeight ≤ convEx.vp.boundingHeight) ∧
    ((enforce (scrollToMessage elEx convEx).snap (scrollToMessage elEx convEx).vp
        none true).2.1.scrollTop = calculateOffset elEx convEx.vp ∧
     (enforce (scrollToMessage elEx convEx).snap (scrollToMessage elEx convEx).vp
        none true).2.2.isSnapped = true ∧
     (enforce (scrollToMessage elEx convEx).snap (scrollToMessage elEx convEx).vp
        none true).1.isSnapped = true) :=
  ⟨by norm_num [convEx, vpEx],
   scrollToMessage_then_force_snap convEx elEx (by norm_num [convEx, vpEx])⟩

lemma readerLoad_run_length (n : Nat) :
    ∀ st : PromptState, n ≤ st.pendingReads.length →
      ((List.replicate n PromptEvent.readerLoad).foldl applyEvent st).attachments.length
        = st.attachments.length + n := by
  induction n with
  | zero => intro st _; simp
  | succ m ih =>
    intro st hn
    rw [List.replicate_succ, List.foldl_cons]
    cases hp : st.pendingReads with
    | nil => rw [hp] at hn; simp at hn
    | cons f rest =>
      have hstep : applyEvent st .readerLoad =
          ⟨st.attachments ++ [attachmentOfFile f], rest⟩ := by
        show readerOnload st = _
        unfold readerOnload
        rw [hp]
      rw [hstep, ih ⟨st.attachments ++ [attachmentOfFile f], rest⟩
        (by rw [hp] at hn; simpa using Nat.le_of_succ_le_succ hn)]
      simp
      omega

/-- C10: the claim that the attachment list never exceeds
`MAX_ATTACHMENTS = 5` is the evident intent of the code (the constant and
the `remaining` cap check), but the check is synchronous while the pushes
happen in the asynchronous `FileReader.onload` callbacks with no re-check:
at the failing input — two `change` events each offering 5 files, the
second arriving before any `onload` has fired, then the 10 `onload`
callbacks — the attachment list reaches 10 entries, exceeding the cap. -/
theorem attachments_exceed_cap_on_overlapping_selects :
    (runPromptEvents overflowEvents).attachments.length = 10 ∧
    MAX_ATTACHMENTS < ((runPromptEvents overflowEvents).attachments.length : ℤ) := by
  have hst2 : ([PromptEvent.selectFiles filesEx,
      PromptEvent.selectFiles filesEx]).foldl applyEvent ⟨[], []⟩
      = (⟨[], filesEx ++ filesEx⟩ : PromptState) := by
    norm_num [applyEvent, handleFiles, MAX_ATTACHMENTS, filesEx]
    decide
  have hmain : (runPromptEvents overflowEvents).attachments.length = 10 := by
    unfold runPromptEvents overflowEvents
    rw [List.foldl_append, hst2,
      readerLoad_run_length 10 ⟨[], filesEx ++ filesEx⟩ (by simp [filesEx])]
    simp
  exact ⟨hmain, by rw [hmain]; norm_num [MAX_ATTACHMENTS]⟩

lemma setPaddingBottom_self (vp : Viewport) (p : ℚ) (h : vp.paddingBottom = p) :
    setPaddingBottom p vp = vp := by
  cases vp with
  | mk st sh ch bh pt pb =>
    cases h
    simp [setPaddingBottom]

/-- When the current bottom padding already equals the needed padding,
`enforce` leaves the padding in place and only the snap/scroll logic runs. -/
lemma enforce_stable (snap' : SnapState) (w : Viewport) (oh : Option ℚ) (fs : Bool)
    (el : Element) (ht' : snap'.target = some el)
    (hpb : w.paddingBottom = ((neededPadding el w oh : ℤ) : ℚ)) :
    enforce snap' w oh fs =
      (if fs then
        ({ snap' with isSnapped := true }, setScrollTop (calculateOffset el w) w,
          ⟨true, neededPadding el w oh⟩)
      else if snap'.isSnapped then
        if |w.scrollTop - calculateOffset el w| > 10 then
          ({ snap' with isSnapped := false }, w, ⟨false, neededPadding el w oh⟩)
        else if |w.scrollTop - calculateOffset el w| > 0 then
          (snap', setScrollTop (calculateOffset el w) w,
            ⟨snap'.isSnapped, neededPadding el w oh⟩)
        else (snap', w, ⟨snap'.isSnapped, neededPadding el w oh⟩)
      else (snap', w, ⟨snap'.isSnapped, neededPadding el w oh⟩)) := by
  rw [enforce_some snap' w oh fs el ht']
  dsimp only
  rw [setPaddingBottom_self w ((neededPadding el w oh : ℤ) : ℚ) hpb]

/-- C6: `enforce` is idempotent: with a snap target set and unchanged
inputs, a second `enforce` call right after a first one returns the same
padding and the same snap state (both in the returned object and in the
stored flag) as the first call. (The hypothesis says the client height does
not exceed the effective viewport height used by `enforce`.) -/
theorem enforce_idempotent (snap : SnapState) (vp : Viewport) (oh : Option ℚ) (fs : Bool)
    (el : Element) (ht : snap.target = some el)
    (hch : vp.clientHeight ≤ viewportHeightOf oh vp) :
    (enforce (enforce snap vp oh fs).1 (enforce snap vp oh fs).2.1 oh fs).2.2
        = (enforce snap vp oh fs).2.2 ∧
    (enforce (enforce snap vp oh fs).1 (enforce snap vp oh fs).2.1 oh fs).1
        = (enforce snap vp oh fs).1 := by
  cases fs with
  | true =>
    have h1 : enforce snap vp oh true =
        ({ snap with isSnapped := true },
          setScrollTop (calculateOffset el vp)
            (setPaddingBottom ((neededPadding el vp oh : ℤ) : ℚ) vp),
          ⟨true, neededPadding el vp oh⟩) := by
      rw [enforce_some snap vp oh true el ht]
      dsimp only
      rw [if_pos rfl]
    rw [h1]
    dsimp only
    have hpb2 : (setScrollTop (calculateOffset el vp)
          (setPaddingBottom ((neededPadding el vp oh : ℤ) : ℚ) vp)).paddingBottom =
        ((neededPadding el (setScrollTop (calculateOffset el vp)
          (setPaddingBottom ((neededPadding el vp oh : ℤ) : ℚ) vp)) oh : ℤ) : ℚ) := by
      simp only [setScrollTop_paddingBottom, setPaddingBottom_paddingBottom,
        neededPadding_setScrollTop, neededPadding_setPaddingBottom]
    rw [enforce_stable { snap with isSnapped := true }
      (setScrollTop (calculateOffset el vp)
        (setPaddingBottom ((neededPadding el vp oh : ℤ) : ℚ) vp)) oh true el ht hpb2]
    rw [if_pos rfl]
    constructor
    · simp only [neededPadding_setScrollTop, neededPadding_setPaddingBottom]
    · rfl
  | false =>
    by_cases hsn : snap.isSnapped = true
    · by_cases h10 : |vp.scrollTop - calculateOffset el vp| > 10
      · have h1 : enforce snap vp oh false =
            ({ snap with isSnapped := false },
              setPaddingBottom ((neededPadding el vp oh : ℤ) : ℚ) vp,
              ⟨false, neededPadding el vp oh⟩) := by
          rw [enforce_some snap vp oh false el ht]
          dsimp only
          simp only [setPaddingBottom_scrollTop]
          rw [if_neg Bool.false_ne_true, if_pos hsn, if_pos h10]
        rw [h1]
        dsimp only
        have hpb2 : (setPaddingBottom ((neededPadding el vp oh : ℤ) : ℚ) vp).paddingBottom =
            ((neededPadding el (setPaddingBottom ((neededPadding el vp oh : ℤ) : ℚ) vp) oh
              : ℤ) : ℚ) := by
          simp only [setPaddingBottom_paddingBottom, neededPadding_setPaddingBottom]
        rw [enforce_stable { snap with isSnapped := false }
          (setPaddingBottom ((neededPadding el vp oh : ℤ) : ℚ) vp) oh false el ht hpb2]
        rw [if_neg Bool.false_ne_true, if_neg (by simp)]
        constructor
        · simp only [neededPadding_setPaddingBottom]
        · rfl
      · by_cases h0 : |vp.scrollTop - calculateOffset el vp| > 0
        · have h1 : enforce snap vp oh false =
              (snap,
                setScrollTop (calculateOffset el vp)
                  (setPaddingBottom ((neededPadding el vp oh : ℤ) : ℚ) vp),
                ⟨snap.isSnapped, neededPadding el vp oh⟩) := by
            rw [enforce_some snap vp oh false el ht]
            dsimp only
            simp only [setPaddingBottom_scrollTop]
            rw [if_neg Bool.false_ne_true, if_pos hsn, if_neg h10, if_pos h0]
          rw [h1]
          dsimp only
          have hpb2 : (setScrollTop (calculateOffset el vp)
                (setPaddingBottom ((neededPadding el vp oh : ℤ) : ℚ) vp)).paddingBottom =
              ((neededPadding el (setScrollTop (calculateOffset el vp)
                (setPaddingBottom ((neededPadding el vp oh : ℤ) : ℚ) vp)) oh : ℤ) : ℚ) := by
            simp only [setScrollTop_paddingBottom, setPaddingBottom_paddingBottom,
              neededPadding_setScrollTop, neededPadding_setPaddingBottom]
          rw [enforce_stable snap
            (setScrollTop (calculateOffset el vp)
              (setPaddingBottom ((neededPadding el vp oh : ℤ) : ℚ) vp)) oh false el ht hpb2]
          rw [if_neg Bool.false_ne_true, if_pos hsn]
          simp only [calculateOffset_setScrollTop, calculateOffset_setPaddingBottom,
            setScrollTop_snapOffset el vp oh hch, sub_self, abs_zero]
          rw [if_neg (by norm_num), if_neg (by norm_num)]
          constructor
          · simp only [neededPadding_setScrollTop, neededPadding_setPaddingBottom]
          · rfl
        · have h1 : enforce snap vp oh false =
              (snap, setPaddingBottom ((neededPadding el vp oh : ℤ) : ℚ) vp,
                ⟨snap.isSnapped, neededPadding el vp oh⟩) := by
            rw [enforce_some snap vp oh false el ht]
            dsimp only
            simp only [setPaddingBottom_scrollTop]
            rw [if_neg Bool.false_ne_true, if_pos hsn, if_neg h10, if_neg h0]
          rw [h1]
          dsimp only
          have hpb2 : (setPaddingBottom ((neededPadding el vp oh : ℤ) : ℚ) vp).paddingBottom =
              ((neededPadding el (setPaddingBottom ((neededPadding el vp oh : ℤ) : ℚ) vp) oh
                : ℤ) : ℚ) := by
            simp only [setPaddingBottom_paddingBottom, neededPadding_setPaddingBottom]
          rw [enforce_stable snap
            (setPaddingBottom ((neededPadding el vp oh : ℤ) : ℚ) vp) oh false el ht hpb2]
          rw [if_neg Bool.false_ne_true, if_pos hsn]
          simp only [setPaddingBottom_scrollTop, calculateOffset_setPaddingBottom]
          rw [if_neg h10, if_neg h0]
          constructor
          · simp only [neededPadding_setPaddingBottom]
          · rfl
    · have h1 : enforce snap vp oh false =
          (snap, setPaddingBottom ((neededPadding el vp oh : ℤ) : ℚ) vp,
            ⟨snap.isSnapped, neededPadding el vp oh⟩) := by
        rw [enforce_some snap vp oh false el ht]
        dsimp only
        rw [if_neg Bool.false_ne_true, if_neg hsn]
      rw [h1]
      dsimp only
      have hpb2 : (setPaddingBottom ((neededPadding el vp oh : ℤ) : ℚ) vp).paddingBottom =
          ((neededPadding el (setPaddingBottom ((neededPadding el vp oh : ℤ) : ℚ) vp) oh
            : ℤ) : ℚ) := by
        simp only [setPaddingBottom_paddingBottom, neededPadding_setPaddingBottom]
      rw [enforce_stable snap
        (setPaddingBottom ((neededPadding el vp oh : ℤ) : ℚ) vp) oh false el ht hpb2]
      rw [if_neg Bool.false_ne_true, if_neg hsn]
      constructor
      · simp only [neededPadding_setPaddingBottom]
      · rfl

/-- Witness for C6 at a concrete input. -/
theorem enforce_idempotent_witness :
    (snapEx.target = some elEx ∧ vpEx.clientHeight ≤ viewportHeightOf none vpEx) ∧
    ((enforce (enforce snapEx vpEx none true).1 (enforce snapEx vpEx none true).2.1
        none true).2.2 = (enforce snapEx vpEx none true).2.2 ∧
     (enforce (enforce snapEx vpEx none true).1 (enforce snapEx vpEx none true).2.1
        none true).1 = (enforce snapEx vpEx none true).1) :=
  ⟨⟨rfl, by norm_num [vpEx, viewportHeightOf]⟩,
   enforce_idempotent snapEx vpEx none true elEx rfl
     (by norm_num [vpEx, viewportHeightOf])⟩

end Nee
